import Mathlib

/-!
Shallow embedding of the data-preparation and chart-payload pipeline of
`src/dashboard.py` (a Streamlit trading dashboard).  The embedding covers:

* `load_data` (lines 30–44): sort by date, parse the `Support`/`Resistance`
  cells with `ast.literal_eval`, derive the band bounds, `Daily_Return`
  (`pct_change() * 100`) and `MA20` (`rolling(window=20).mean()`);
* the date-range filter (lines 58–60);
* the chart-payload construction in the chart tab (lines 65–107):
  candlestick records, the optional 20-day moving-average line, the two
  optional support/resistance band series, and the optional trade markers.

Numbers are modelled as exact rationals, pandas timestamps as a calendar
date plus a seconds-past-midnight component, and the dict records handed
to the chart renderer as ordered association lists of (field name, value).
-/

/-- Calendar date, as parsed by `pd.read_csv(..., parse_dates=["Date"])`. -/
structure Date where
  year : ℕ
  month : ℕ
  day : ℕ
deriving DecidableEq

/-- Chronological sort key of a calendar date (lexicographic on year, month,
day for in-range dates). -/
def Date.key (d : Date) : ℕ := d.year * 10000 + d.month * 100 + d.day

/-- A pandas timestamp: a calendar date plus a time-of-day component in
seconds.  `pd.to_datetime` applied to a plain date yields second `0`. -/
structure Timestamp where
  date : Date
  sec : ℕ
deriving DecidableEq

/-- Chronological sort key of a timestamp (seconds are bounded by a day). -/
def Timestamp.key (t : Timestamp) : ℕ := t.date.key * 100000 + t.sec

/-- `pd.to_datetime(start)` on a plain calendar date: midnight of that day. -/
def midnight (d : Date) : Timestamp := ⟨d, 0⟩

/-- Decimal rendering of a natural number left-padded with zeros to width
`w`, as `strftime` does for each date component. -/
def padNum (w : ℕ) (n : ℕ) : String :=
  let s := toString n
  String.mk (List.replicate (w - s.length) '0') ++ s

/-- `Date.strftime('%Y-%m-%d')`: the ISO 8601 calendar-date string. -/
def Date.iso (d : Date) : String :=
  padNum 4 d.year ++ "-" ++ padNum 2 d.month ++ "-" ++ padNum 2 d.day

/-- `Timestamp.strftime('%Y-%m-%d')` drops the time-of-day component. -/
def Timestamp.strf (t : Timestamp) : String := t.date.iso

/-- Python literal values producible by `ast.literal_eval` on the numeric
fragment that the dashboard's `Support`/`Resistance` cells use: numbers,
list literals and tuple literals. -/
inductive PyLit where
  | num (q : ℚ)
  | list (xs : List PyLit)
  | tup (xs : List PyLit)

/-- Drop leading spaces and tabs. -/
def skipWs : List Char → List Char
  | ' ' :: r => skipWs r
  | '\t' :: r => skipWs r
  | cs => cs

/-- Split off the longest prefix of decimal digits. -/
def takeDigits : List Char → List Char × List Char
  | c :: r =>
    if c.isDigit then
      let p := takeDigits r
      (c :: p.1, p.2)
    else ([], c :: r)
  | [] => ([], [])

/-- Value of a digit string. -/
def digitsToNat (ds : List Char) : ℕ :=
  ds.foldl (fun a c => a * 10 + (c.toNat - 48)) 0

/-- Parse a signed decimal numeric literal (integer or decimal-point
float), returning the value and the remaining input. -/
def parseNumber (cs : List Char) : Option (ℚ × List Char) :=
  let signed : Bool × List Char :=
    match cs with
    | '-' :: r => (true, r)
    | '+' :: r => (false, r)
    | _ => (false, cs)
  let (ds, cs2) := takeDigits signed.2
  if ds.isEmpty then none
  else
    let ip : ℚ := (digitsToNat ds : ℚ)
    let (v, rest) : ℚ × List Char :=
      match cs2 with
      | '.' :: r =>
        let (fs, cs3) := takeDigits r
        (ip + (digitsToNat fs : ℚ) / (10 : ℚ) ^ fs.length, cs3)
      | _ => (ip, cs2)
    some (if signed.1 then -v else v, rest)

mutual

/-- Fuel-indexed recursive-descent parser for one Python literal value:
a number, a `[...]` list, or a `(...)` parenthesized value / tuple. -/
def parseVal : ℕ → List Char → Option (PyLit × List Char)
  | 0, _ => none
  | fuel + 1, cs =>
    match skipWs cs with
    | '[' :: r =>
      match parseSeq fuel r ']' with
      | some (xs, _, rest) => some (PyLit.list xs, rest)
      | none => none
    | '(' :: r =>
      match parseSeq fuel r ')' with
      | some ([v], false, rest) => some (v, rest)
      | some (xs, _, rest) => some (PyLit.tup xs, rest)
      | none => none
    | cs2 =>
      match parseNumber cs2 with
      | some (q, rest) => some (PyLit.num q, rest)
      | none => none

/-- Parse a comma-separated (possibly empty, possibly trailing-comma)
sequence of literals up to the closing bracket `closer`.  Returns the
items, whether a comma occurred, and the remaining input. -/
def parseSeq : ℕ → List Char → Char → Option (List PyLit × Bool × List Char)
  | 0, _, _ => none
  | fuel + 1, cs, closer =>
    match skipWs cs with
    | [] => none
    | c :: r =>
      if c = closer then some ([], false, r)
      else
        match parseVal fuel cs with
        | none => none
        | some (v, rest) =>
          match skipWs rest with
          | [] => none
          | c2 :: r2 =>
            if c2 = closer then some ([v], false, r2)
            else if c2 = ',' then
              match skipWs r2 with
              | [] => none
              | c3 :: r3 =>
                if c3 = closer then some ([v], true, r3)
                else
                  match parseSeq fuel r2 closer with
                  | some (xs, _, rest2) => some (v :: xs, true, rest2)
                  | none => none
            else none

end

/-- Parse the remainder of a top-level bare tuple after a comma: further
comma-separated literals until the end of input, trailing comma allowed. -/
def parseRest : ℕ → List Char → Option (List PyLit)
  | 0, _ => none
  | fuel + 1, cs =>
    match skipWs cs with
    | [] => some []
    | _ =>
      match parseVal fuel cs with
      | none => none
      | some (v, rest) =>
        match skipWs rest with
        | [] => some [v]
        | ',' :: r =>
          match parseRest fuel r with
          | some xs => some (v :: xs)
          | none => none
        | _ => none

/-- Model of Python's `ast.literal_eval` on the numeric fragment relevant
to the `Support`/`Resistance` cells: numbers, list literals, tuple
literals (bracketed or top-level bare, e.g. `"100,105"`), nested to any
depth; `none` models the exception raised on any other input.  Note that
`eval`-mode parsing makes a top-level comma-separated sequence a valid
tuple literal. -/
def literal_eval (s : String) : Option PyLit :=
  let cs := s.toList
  let fuel := 2 * cs.length + 4
  match parseVal fuel cs with
  | none => none
  | some (v, rest) =>
    match skipWs rest with
    | [] => some v
    | ',' :: r =>
      match parseRest fuel r with
      | some xs => some (PyLit.tup (v :: xs))
      | none => none
    | _ => none

/-- A `Support`/`Resistance` cell as it arrives from `read_csv`: either a
string (the usual case) or an already-non-string value, which the code's
`isinstance(x, str)` test passes through unchanged. -/
inductive Cell where
  | str (s : String)
  | lit (v : PyLit)

/-- The per-cell parse step `ast.literal_eval(x) if isinstance(x, str) else x`. -/
def parseCellOpt : Cell → Option PyLit
  | .str s => literal_eval s
  | .lit v => some v

/-- One raw CSV row after `read_csv(parse_dates=["Date"])`. -/
structure RawRow where
  date : Timestamp
  open_ : ℚ
  high : ℚ
  low : ℚ
  close : ℚ
  support : Cell
  resistance : Cell
  direction : String

/-- Error taxonomy of the preparation step, matching the spec's names:
`parseError` for a malformed `Support`/`Resistance` literal, `typeError`
for `min`/`max` applied to a non-sequence or non-numeric elements,
`valueError` for `min`/`max` of an empty sequence. -/
inductive PrepError where
  | parseError
  | typeError
  | valueError
deriving DecidableEq

/-- A row after cell parsing and band-bound derivation, before the
positional derived columns. -/
structure PRow where
  date : Timestamp
  open_ : ℚ
  high : ℚ
  low : ℚ
  close : ℚ
  support : List ℚ
  resistance : List ℚ
  support_min : ℚ
  support_max : ℚ
  resistance_min : ℚ
  resistance_max : ℚ
  direction : String
deriving DecidableEq

/-- A fully prepared row: the dataframe row after `load_data`, with the
derived columns `Daily_Return` and `MA20` (`none` models pandas `NaN`). -/
structure Row where
  date : Timestamp
  open_ : ℚ
  high : ℚ
  low : ℚ
  close : ℚ
  support : List ℚ
  resistance : List ℚ
  support_min : ℚ
  support_max : ℚ
  resistance_min : ℚ
  resistance_max : ℚ
  direction : String
  daily_return : Option ℚ
  ma20 : Option ℚ
deriving DecidableEq

/-- Chronological comparison of raw rows, the key of `sort_values("Date")`. -/
def byDateLe (a b : RawRow) : Prop := a.date.key ≤ b.date.key

instance : DecidableRel byDateLe := fun a b => Nat.decLe a.date.key b.date.key

instance : IsTotal RawRow byDateLe := ⟨fun a b => Nat.le_total a.date.key b.date.key⟩

instance : IsTrans RawRow byDateLe := ⟨fun _ _ _ h1 h2 => Nat.le_trans h1 h2⟩

/-- `df.sort_values("Date")`: sort the rows chronologically. -/
def sortByDate (l : List RawRow) : List RawRow :=
  l.insertionSort byDateLe

/-- Map a fallible function over a list, failing if any element fails
(models a pandas column-wise `apply` that can raise). -/
def mapOpt (f : α → Option β) : List α → Option (List β)
  | [] => some []
  | a :: l =>
    match f a with
    | none => none
    | some b => (mapOpt f l).map (b :: ·)

/-- Map an `Except`-valued function over a list, propagating the first
error in list order. -/
def mapExcept (f : α → Except ε β) : List α → Except ε (List β)
  | [] => .ok []
  | a :: l =>
    match f a with
    | .error e => .error e
    | .ok b => (mapExcept f l).map (b :: ·)

/-- Extract the elements of a parsed literal sequence when all are
numbers (Python's `min`/`max` comparison succeeds). -/
def numsOf : List PyLit → Option (List ℚ)
  | [] => some []
  | .num q :: l => (numsOf l).map (q :: ·)
  | _ => none

/-- `min(x)` and `max(x)` on a parsed cell value: a bare number is not
iterable (`TypeError`), a sequence with non-numeric elements fails the
comparison (`TypeError`), an empty sequence raises `ValueError`; otherwise
return the numeric elements with their minimum and maximum. -/
def boundsOf (v : PyLit) : Except PrepError (List ℚ × ℚ × ℚ) :=
  match v with
  | .num _ => .error .typeError
  | .list xs => seqBounds xs
  | .tup xs => seqBounds xs
where
  seqBounds (xs : List PyLit) : Except PrepError (List ℚ × ℚ × ℚ) :=
    match numsOf xs with
    | none => .error .typeError
    | some [] => .error .valueError
    | some (q :: qs) => .ok (q :: qs, qs.foldl min q, qs.foldl max q)

/-- Zip the sorted raw rows with their parsed support and resistance
bounds, positionally, into pre-derived rows. -/
def assemble : List RawRow → List (List ℚ × ℚ × ℚ) → List (List ℚ × ℚ × ℚ) → List PRow
  | r :: rs, sb :: sbs, rb :: rbs =>
    { date := r.date, open_ := r.open_, high := r.high, low := r.low, close := r.close,
      support := sb.1, support_min := sb.2.1, support_max := sb.2.2,
      resistance := rb.1, resistance_min := rb.2.1, resistance_max := rb.2.2,
      direction := r.direction } :: assemble rs sbs rbs
  | _, _, _ => []

/-- The sort / parse / band-bound phase of `load_data`, in the code's
column order: sort by date, parse the whole `Support` column, parse the
whole `Resistance` column, then derive the four band-bound columns. -/
def parsePhase (raws : List RawRow) : Except PrepError (List PRow) :=
  match mapOpt parseCellOpt ((sortByDate raws).map (fun r => r.support)) with
  | none => .error .parseError
  | some supLits =>
    match mapOpt parseCellOpt ((sortByDate raws).map (fun r => r.resistance)) with
    | none => .error .parseError
    | some resLits =>
      match mapExcept boundsOf supLits with
      | .error e => .error e
      | .ok supBounds =>
        match mapExcept boundsOf resLits with
        | .error e => .error e
        | .ok resBounds => .ok (assemble (sortByDate raws) supBounds resBounds)

/-- The positional derived columns of row `i`:
`Daily_Return = Close.pct_change() * 100` (undefined on the first row) and
`MA20 = Close.rolling(window=20).mean()` (undefined before 20 rows). -/
def mkDerivedRow (closes : List ℚ) (i : ℕ) (pr : PRow) : Row :=
  { date := pr.date, open_ := pr.open_, high := pr.high, low := pr.low, close := pr.close,
    support := pr.support, resistance := pr.resistance,
    support_min := pr.support_min, support_max := pr.support_max,
    resistance_min := pr.resistance_min, resistance_max := pr.resistance_max,
    direction := pr.direction,
    daily_return :=
      match i with
      | 0 => none
      | Nat.succ k => closes[k]?.map fun prev => (pr.close - prev) / prev * 100,
    ma20 :=
      if 19 ≤ i then some (((closes.drop (i - 19)).take 20).sum / 20) else none }

/-- Attach the positional derived columns, threading the row index. -/
def addDerivedAux (closes : List ℚ) : ℕ → List PRow → List Row
  | _, [] => []
  | i, pr :: rest => mkDerivedRow closes i pr :: addDerivedAux closes (i + 1) rest

/-- Attach `Daily_Return` and `MA20` to every row of the prepared table. -/
def addDerived (prows : List PRow) : List Row :=
  addDerivedAux (prows.map (·.close)) 0 prows

/-- `load_data` of `src/dashboard.py` (lines 30–44), minus the CSV I/O:
sort by date, parse the list cells, derive the band bounds, then the
positional columns `Daily_Return` and `MA20`. -/
def load_data (raws : List RawRow) : Except PrepError (List Row) :=
  (parsePhase raws).map addDerived

/-- The date-range filter (lines 58–60):
`df[(df.Date >= pd.to_datetime(start)) & (df.Date <= pd.to_datetime(end))]`.
The row timestamps are compared against the midnights of the two chosen
calendar dates. -/
def filterByDate (tbl : List Row) (s e : Date) : List Row :=
  tbl.filter fun r =>
    decide ((midnight s).key ≤ r.date.key) && decide (r.date.key ≤ (midnight e).key)

/-- The three sidebar display toggles. -/
structure Options where
  show_ma : Bool
  show_bands : Bool
  show_markers : Bool
deriving DecidableEq

/-- A value stored in a dict record handed to the chart renderer. -/
inductive Value where
  | str (s : String)
  | num (q : ℚ)
  | nums (l : List ℚ)
  | ts (t : Timestamp)
  | nan
deriving DecidableEq

/-- A dict record: an ordered association list of field name and value,
as produced by `DataFrame.to_dict(orient='records')`. -/
abbrev ChartRec := List (String × Value)

/-- A possibly-missing numeric dataframe entry as it appears in a dict
record (`NaN` for a missing value). -/
def optNum : Option ℚ → Value
  | some q => .num q
  | none => .nan

/-- One candlestick record (lines 69–72): the five selected columns. -/
def candleRecord (r : Row) : ChartRec :=
  [("time", .str r.date.strf), ("open", .num r.open_), ("high", .num r.high),
   ("low", .num r.low), ("close", .num r.close)]

/-- One moving-average line point (lines 81–84). -/
def maPoint (r : Row) (v : ℚ) : ChartRec :=
  [("time", .str r.date.strf), ("value", .num v)]

/-- One band record (lines 90–95): `assign` adds `time`, `low`, `high`
after every existing dataframe column, and `to_dict(orient='records')` is
taken with no column selection, so the record carries every column. -/
def bandRecord (r : Row) (lo hi : ℚ) : ChartRec :=
  [("Date", .ts r.date), ("Open", .num r.open_), ("High", .num r.high),
   ("Low", .num r.low), ("Close", .num r.close), ("Support", .nums r.support),
   ("Resistance", .nums r.resistance), ("Direction", .str r.direction),
   ("Support_min", .num r.support_min), ("Support_max", .num r.support_max),
   ("Resistance_min", .num r.resistance_min), ("Resistance_max", .num r.resistance_max),
   ("Daily_Return", optNum r.daily_return), ("MA20", optNum r.ma20),
   ("time", .str r.date.strf), ("low", .num lo), ("high", .num hi)]

/-- One trade marker (lines 100–106). -/
def markerRecord (r : Row) : ChartRec :=
  [("time", .str r.date.strf),
   ("position", .str (if r.direction = "LONG" then "belowBar"
                      else if r.direction = "SHORT" then "aboveBar" else "inBar")),
   ("color", .str (if r.direction = "LONG" then "green"
                   else if r.direction = "SHORT" then "red" else "yellow")),
   ("shape", .str (if r.direction = "LONG" then "arrowUp"
                   else if r.direction = "SHORT" then "arrowDown" else "circle"))]

/-- The full series payload handed to the chart renderer. -/
structure ChartPayload where
  candlesticks : List ChartRec
  ma20_line : Option (List ChartRec)
  bands : Option (List ChartRec × List ChartRec)
  markers : Option (List ChartRec)
deriving DecidableEq

/-- The chart-tab payload construction (lines 65–107): candles always;
the moving-average line iff `show_ma`, dropping rows whose `MA20` is
missing (`dropna`); the support and resistance bands iff `show_bands`;
the markers iff `show_markers`. -/
def build (tbl : List Row) (o : Options) : ChartPayload :=
  { candlesticks := tbl.map candleRecord,
    ma20_line :=
      if o.show_ma then some (tbl.filterMap fun r => r.ma20.map (maPoint r)) else none,
    bands :=
      if o.show_bands then
        some (tbl.map fun r => bandRecord r r.support_min r.support_max,
              tbl.map fun r => bandRecord r r.resistance_min r.resistance_max)
      else none,
    markers := if o.show_markers then some (tbl.map markerRecord) else none }

set_option maxRecDepth 100000

/-! ### Concrete fixtures used by witnesses and counterexamples -/

/-- A raw CSV row for day `d` of January 2023 with closing price `c`. -/
def mkRawRow (d : ℕ) (c : ℚ) (dir : String) : RawRow :=
  { date := ⟨⟨2023, 1, d⟩, 0⟩, open_ := 100, high := 110, low := 90, close := c,
    support := .str "[100, 105]", resistance := .str "[120, 125]", direction := dir }

/-- The spec's `daily_return` scenario: three consecutive days with closes
`[100, 102, 99]`. -/
def demoRaw3 : List RawRow :=
  [mkRawRow 1 100 "LONG", mkRawRow 2 102 "SHORT", mkRawRow 3 99 "HOLD"]

/-- Twenty-five consecutive days, enough for `MA20` to become defined. -/
def raw25 : List RawRow := (List.range 25).map fun i => mkRawRow (i + 1) (100 + i) "LONG"

/-- The prepared table of `raw25`. -/
def t25 : List Row := (load_data raw25).toOption.getD []

/-- The prepared table of `demoRaw3`. -/
def t3 : List Row := (load_data demoRaw3).toOption.getD []

/-- A raw row whose `Support` cell is the spec's malformed example
`"100,105"` (no brackets). -/
def raw8 : RawRow :=
  let b := mkRawRow 1 100 "LONG"
  { b with support := Cell.str "100,105" }

/-- A raw row whose `Support` cell is a genuinely malformed literal
(unclosed bracket). -/
def rawBad : RawRow :=
  let b := mkRawRow 2 100 "LONG"
  { b with support := Cell.str "[100, 105" }

/-- Two raw rows sharing the same calendar date. -/
def rawDup : List RawRow := [mkRawRow 1 100 "LONG", mkRawRow 1 102 "SHORT"]

/-- A prepared row on 2023-01-05, direction LONG. -/
def demoRow : Row :=
  { date := ⟨⟨2023, 1, 5⟩, 0⟩, open_ := 10, high := 12, low := 9, close := 11,
    support := [100, 105], resistance := [120, 125], support_min := 100, support_max := 105,
    resistance_min := 120, resistance_max := 125, direction := "LONG",
    daily_return := none, ma20 := none }

/-- A prepared row on 2023-01-06, direction SHORT. -/
def demoRow2 : Row := { demoRow with date := ⟨⟨2023, 1, 6⟩, 0⟩, direction := "SHORT" }

/-- A prepared row on 2023-01-07 with an unrecognised direction label. -/
def demoRow3 : Row := { demoRow with date := ⟨⟨2023, 1, 7⟩, 0⟩, direction := "HOLD" }

/-- A prepared row whose timestamp is 01:00 on 2023-01-05 (nonzero
time-of-day). -/
def lateRow : Row := { demoRow with date := ⟨⟨2023, 1, 5⟩, 3600⟩ }

/-! ### Helper lemmas -/

theorem map_zip_self {α β : Type} (f : α → β) (l : List α) :
    (l.map f).zip l = l.map fun r => (f r, r) := by
  induction l with
  | nil => rfl
  | cons a l ih => simp [ih]

theorem mapOpt_length {α β : Type} {f : α → Option β} :
    ∀ {l : List α} {l' : List β}, mapOpt f l = some l' → l'.length = l.length := by
  intro l
  induction l with
  | nil =>
    intro l' h
    simp only [mapOpt] at h
    cases h
    rfl
  | cons a l ih =>
    intro l' h
    simp only [mapOpt] at h
    cases hfa : f a with
    | none => rw [hfa] at h; cases h
    | some b =>
      rw [hfa] at h
      cases hml : mapOpt f l with
      | none => rw [hml] at h; cases h
      | some bs =>
        rw [hml] at h
        cases h
        simp [ih hml]

theorem mapOpt_eq_none_of_mem {α β : Type} {f : α → Option β} {l : List α} {a : α}
    (ha : a ∈ l) (hf : f a = none) : mapOpt f l = none := by
  induction l with
  | nil => cases ha
  | cons b l ih =>
    simp only [mapOpt]
    rcases List.mem_cons.mp ha with rfl | hmem
    · rw [hf]
    · cases hfb : f b
      · rfl
      · rw [ih hmem]; rfl

theorem mapExcept_length {α β ε : Type} {f : α → Except ε β} :
    ∀ {l : List α} {l' : List β}, mapExcept f l = .ok l' → l'.length = l.length := by
  intro l
  induction l with
  | nil =>
    intro l' h
    simp only [mapExcept] at h
    cases h
    rfl
  | cons a l ih =>
    intro l' h
    simp only [mapExcept] at h
    cases hfa : f a with
    | error e => rw [hfa] at h; cases h
    | ok b =>
      rw [hfa] at h
      cases hml : mapExcept f l with
      | error e => rw [hml] at h; cases h
      | ok bs =>
        rw [hml] at h
        cases h
        simp [ih hml]

theorem assemble_map_date :
    ∀ (rs : List RawRow) (sbs rbs : List (List ℚ × ℚ × ℚ)),
      rs.length ≤ sbs.length → rs.length ≤ rbs.length →
      (assemble rs sbs rbs).map PRow.date = rs.map RawRow.date := by
  intro rs
  induction rs with
  | nil => intro sbs rbs _ _; cases sbs <;> cases rbs <;> rfl
  | cons r rs ih =>
    intro sbs rbs h1 h2
    cases sbs with
    | nil => simp at h1
    | cons sb sbs =>
      cases rbs with
      | nil => simp at h2
      | cons rb rbs =>
        simp only [assemble, List.map_cons]
        rw [ih sbs rbs (by simpa using h1) (by simpa using h2)]

theorem mkDerivedRow_date (closes : List ℚ) (i : ℕ) (pr : PRow) :
    (mkDerivedRow closes i pr).date = pr.date := rfl

theorem mkDerivedRow_close (closes : List ℚ) (i : ℕ) (pr : PRow) :
    (mkDerivedRow closes i pr).close = pr.close := rfl

theorem mkDerivedRow_daily_return_zero (closes : List ℚ) (pr : PRow) :
    (mkDerivedRow closes 0 pr).daily_return = none := rfl

theorem mkDerivedRow_daily_return_succ (closes : List ℚ) (k : ℕ) (pr : PRow) :
    (mkDerivedRow closes (k + 1) pr).daily_return =
      closes[k]?.map fun prev => (pr.close - prev) / prev * 100 := rfl

theorem mkDerivedRow_ma20 (closes : List ℚ) (i : ℕ) (pr : PRow) :
    (mkDerivedRow closes i pr).ma20 =
      if 19 ≤ i then some (((closes.drop (i - 19)).take 20).sum / 20) else none := rfl

theorem addDerivedAux_length (closes : List ℚ) (l : List PRow) :
    ∀ i : ℕ, (addDerivedAux closes i l).length = l.length := by
  induction l with
  | nil => intro i; rfl
  | cons pr rest ih => intro i; simp [addDerivedAux, ih]

theorem addDerivedAux_getElem? (closes : List ℚ) (l : List PRow) :
    ∀ i j : ℕ,
      (addDerivedAux closes i l)[j]? = l[j]?.map fun pr => mkDerivedRow closes (i + j) pr := by
  induction l with
  | nil => intro i j; simp [addDerivedAux]
  | cons pr rest ih =>
    intro i j
    cases j with
    | zero => simp [addDerivedAux]
    | succ k =>
      simp only [addDerivedAux, List.getElem?_cons_succ]
      rw [ih (i + 1) k]
      have e : i + 1 + k = i + (k + 1) := by omega
      rw [e]

theorem addDerived_length (prows : List PRow) :
    (addDerived prows).length = prows.length :=
  addDerivedAux_length _ _ _

theorem addDerived_getElem? (prows : List PRow) (j : ℕ) :
    (addDerived prows)[j]? =
      prows[j]?.map fun pr => mkDerivedRow (prows.map PRow.close) j pr := by
  simpa using addDerivedAux_getElem? (prows.map PRow.close) prows 0 j

theorem addDerived_getElem (prows : List PRow) (j : ℕ)
    (h : j < (addDerived prows).length) (h2 : j < prows.length) :
    (addDerived prows)[j] = mkDerivedRow (prows.map PRow.close) j prows[j] := by
  have hq := addDerived_getElem? prows j
  rw [List.getElem?_eq_getElem h, List.getElem?_eq_getElem h2] at hq
  simpa using hq

theorem addDerived_map_close (prows : List PRow) :
    (addDerived prows).map Row.close = prows.map PRow.close := by
  apply List.ext_getElem?
  intro n
  rw [List.getElem?_map, List.getElem?_map, addDerived_getElem? prows n]
  cases prows[n]? <;> simp [mkDerivedRow_close]

theorem addDerived_map_date (prows : List PRow) :
    (addDerived prows).map Row.date = prows.map PRow.date := by
  apply List.ext_getElem?
  intro n
  rw [List.getElem?_map, List.getElem?_map, addDerived_getElem? prows n]
  cases prows[n]? <;> simp [mkDerivedRow_date]

theorem parsePhase_ok_elim {raws : List RawRow} {prows : List PRow}
    (h : parsePhase raws = .ok prows) :
    ∃ supLits resLits supBounds resBounds,
      mapOpt parseCellOpt ((sortByDate raws).map (fun r => r.support)) = some supLits ∧
      mapOpt parseCellOpt ((sortByDate raws).map (fun r => r.resistance)) = some resLits ∧
      mapExcept boundsOf supLits = .ok supBounds ∧
      mapExcept boundsOf resLits = .ok resBounds ∧
      prows = assemble (sortByDate raws) supBounds resBounds := by
  unfold parsePhase at h
  split at h
  · exact Except.noConfusion h
  next supLits h1 =>
    split at h
    · exact Except.noConfusion h
    next resLits h2 =>
      split at h
      next e h3 => exact Except.noConfusion h
      next supBounds h3 =>
        split at h
        next e h4 => exact Except.noConfusion h
        next resBounds h4 =>
          cases h
          exact ⟨supLits, resLits, supBounds, resBounds, h1, h2, h3, h4, rfl⟩

theorem parsePhase_map_date {raws : List RawRow} {prows : List PRow}
    (h : parsePhase raws = .ok prows) :
    prows.map PRow.date = (sortByDate raws).map RawRow.date := by
  obtain ⟨sl, rl, sb, rb, h1, h2, h3, h4, rfl⟩ := parsePhase_ok_elim h
  have l1 : sl.length = (sortByDate raws).length := by
    have := mapOpt_length h1
    simpa using this
  have l2 : rl.length = (sortByDate raws).length := by
    have := mapOpt_length h2
    simpa using this
  have l3 : sb.length = sl.length := mapExcept_length h3
  have l4 : rb.length = rl.length := mapExcept_length h4
  exact assemble_map_date _ _ _ (by omega) (by omega)

theorem load_data_ok {raws : List RawRow} {t : List Row}
    (h : load_data raws = .ok t) :
    ∃ prows, parsePhase raws = .ok prows ∧ t = addDerived prows := by
  unfold load_data at h
  cases hp : parsePhase raws with
  | error e => rw [hp] at h; cases h
  | ok prows =>
    rw [hp] at h
    cases h
    exact ⟨prows, rfl, rfl⟩

theorem sortByDate_pairwise (l : List RawRow) :
    (sortByDate l).Pairwise byDateLe :=
  List.sorted_insertionSort byDateLe l

theorem addDerived_daily_return_zero {prows : List PRow}
    (h : 0 < (addDerived prows).length) :
    ((addDerived prows)[0]).daily_return = none := by
  rw [addDerived_getElem prows 0 h (by rwa [addDerived_length] at h),
    mkDerivedRow_daily_return_zero]

theorem addDerived_daily_return_succ {prows : List PRow} {i : ℕ}
    (h : i + 1 < (addDerived prows).length) :
    ((addDerived prows)[i + 1]).daily_return =
      some ((((addDerived prows)[i + 1]).close - ((addDerived prows)[i]).close) /
        ((addDerived prows)[i]).close * 100) := by
  have h2 : i + 1 < prows.length := by rwa [addDerived_length] at h
  have hi : i < prows.length := by omega
  have hit : i < (addDerived prows).length := by rw [addDerived_length]; omega
  have hc : (prows.map PRow.close)[i]? = some prows[i].close := by
    rw [List.getElem?_map, List.getElem?_eq_getElem hi]
    rfl
  rw [addDerived_getElem prows (i + 1) h h2, mkDerivedRow_daily_return_succ, hc]
  simp [addDerived_getElem prows i hit hi, addDerived_getElem prows (i + 1) h h2,
    mkDerivedRow_close]

theorem addDerived_ma20_none {prows : List PRow} {j : ℕ}
    (h : j < (addDerived prows).length) (hj : j < 19) :
    ((addDerived prows)[j]).ma20 = none := by
  rw [addDerived_getElem prows j h (by rwa [addDerived_length] at h), mkDerivedRow_ma20,
    if_neg (by omega)]

theorem addDerived_ma20_some {prows : List PRow} {j : ℕ}
    (h : j < (addDerived prows).length) (hj : 19 ≤ j) :
    ((addDerived prows)[j]).ma20 =
      some (((((addDerived prows).map Row.close).drop (j - 19)).take 20).sum / 20) := by
  rw [addDerived_getElem prows j h (by rwa [addDerived_length] at h), mkDerivedRow_ma20,
    if_pos hj, addDerived_map_close]

theorem filterMap_maPoint (t : List Row) :
    (t.filterMap fun r => r.ma20.map (maPoint r)) =
      (t.filter fun r => r.ma20.isSome).map fun r => maPoint r (r.ma20.getD 0) := by
  induction t with
  | nil => rfl
  | cons hd tl ih =>
    cases h : hd.ma20 with
    | none => simp [List.filterMap_cons, List.filter_cons, h, ih]
    | some v => simp [List.filterMap_cons, List.filter_cons, h, ih]

theorem addDerived_filter_ma20 (prows : List PRow) :
    ((addDerived prows).filter fun r => r.ma20.isSome) = (addDerived prows).drop 19 := by
  have hnil : ((addDerived prows).take 19).filter (fun r => r.ma20.isSome) = [] := by
    apply List.filter_eq_nil_iff.mpr
    intro a ha
    obtain ⟨j, hjl, hja⟩ := List.mem_iff_getElem.mp ha
    have hj19 : j < 19 := by
      have := hjl
      simp [List.length_take] at this
      omega
    have hjt : j < (addDerived prows).length := by
      have := hjl
      simp [List.length_take] at this
      omega
    rw [List.getElem_take] at hja
    rw [← hja]
    simp [addDerived_ma20_none hjt hj19]
  have hself : ((addDerived prows).drop 19).filter (fun r => r.ma20.isSome) =
      (addDerived prows).drop 19 := by
    apply List.filter_eq_self.mpr
    intro a ha
    obtain ⟨j, hjl, hja⟩ := List.mem_iff_getElem.mp ha
    have hjt : 19 + j < (addDerived prows).length := by
      simp [List.length_drop] at hjl
      omega
    rw [List.getElem_drop] at hja
    rw [← hja]
    simp [addDerived_ma20_some hjt (by omega)]
  conv_lhs => rw [← List.take_append_drop 19 (addDerived prows)]
  rw [List.filter_append, hnil, hself, List.nil_append]

/-- All three display toggles switched on. -/
def optsAll : Options := ⟨true, true, true⟩

/-! ### Claims -/

/-- C1: for every prepared table (rows in ascending date order) and every
options setting, the candle series is produced regardless of the three
toggles, and contains exactly one record per row carrying exactly the
fields `time` (the row's date as an ISO 8601 calendar-date string),
`open`, `high`, `low`, `close`, with the records in ascending date
order. -/
theorem candle_series_complete (tbl : List Row) (o : Options)
    (hs : tbl.Pairwise fun a b => a.date.key ≤ b.date.key) :
    (build tbl o).candlesticks =
      tbl.map (fun r =>
        [("time", Value.str r.date.date.iso), ("open", Value.num r.open_),
         ("high", Value.num r.high), ("low", Value.num r.low),
         ("close", Value.num r.close)]) ∧
    ((build tbl o).candlesticks.zip tbl).Pairwise
      (fun p q => p.2.date.key ≤ q.2.date.key) := by
  constructor
  · rfl
  · show ((tbl.map candleRecord).zip tbl).Pairwise _
    rw [map_zip_self, List.pairwise_map]
    exact hs

/-- C1 witness: the candle-series theorem applied to a concrete sorted
two-row table with every toggle on. -/
theorem candle_series_complete_witness :
    ([demoRow, demoRow2].Pairwise fun a b => a.date.key ≤ b.date.key) ∧
    ((build [demoRow, demoRow2] optsAll).candlesticks =
      [demoRow, demoRow2].map (fun r =>
        [("time", Value.str r.date.date.iso), ("open", Value.num r.open_),
         ("high", Value.num r.high), ("low", Value.num r.low),
         ("close", Value.num r.close)]) ∧
    ((build [demoRow, demoRow2] optsAll).candlesticks.zip [demoRow, demoRow2]).Pairwise
      (fun p q => p.2.date.key ≤ q.2.date.key)) :=
  ⟨by decide, candle_series_complete [demoRow, demoRow2] optsAll (by decide)⟩

/-- C2: when `show_markers` is true the marker series holds exactly one
marker per row whose placement, color and shape are a pure function of the
row's `direction`: LONG gives `(belowBar, green, arrowUp)`, SHORT gives
`(aboveBar, red, arrowDown)`, and every other value gives
`(inBar, yellow, circle)`. -/
theorem marker_policy (tbl : List Row) (o : Options) (hm : o.show_markers = true) :
    (build tbl o).markers = some (tbl.map fun r =>
      [("time", Value.str r.date.date.iso),
       ("position", Value.str (if r.direction = "LONG" then "belowBar"
          else if r.direction = "SHORT" then "aboveBar" else "inBar")),
       ("color", Value.str (if r.direction = "LONG" then "green"
          else if r.direction = "SHORT" then "red" else "yellow")),
       ("shape", Value.str (if r.direction = "LONG" then "arrowUp"
          else if r.direction = "SHORT" then "arrowDown" else "circle"))]) := by
  show (if o.show_markers then some (tbl.map markerRecord) else none) = _
  rw [hm]
  rfl

/-- C2 witness: the marker theorem applied to a concrete table with one
LONG, one SHORT and one unrecognised direction. -/
theorem marker_policy_witness :
    optsAll.show_markers = true ∧
    (build [demoRow, demoRow2, demoRow3] optsAll).markers =
      some ([demoRow, demoRow2, demoRow3].map fun r =>
        [("time", Value.str r.date.date.iso),
         ("position", Value.str (if r.direction = "LONG" then "belowBar"
            else if r.direction = "SHORT" then "aboveBar" else "inBar")),
         ("color", Value.str (if r.direction = "LONG" then "green"
            else if r.direction = "SHORT" then "red" else "yellow")),
         ("shape", Value.str (if r.direction = "LONG" then "arrowUp"
            else if r.direction = "SHORT" then "arrowDown" else "circle"))]) :=
  ⟨rfl, marker_policy [demoRow, demoRow2, demoRow3] optsAll rfl⟩

/-- C3 counterexample: with `show_bands` on, a support-band record handed
to the renderer is not a flat record with only the field names `time`,
`low`, `high`: the `to_dict(orient='records')` call is made without column
selection, so the record carries every dataframe column. -/
theorem band_projection_counterexample :
    ((build [demoRow] optsAll).bands.map fun p => p.1.map fun rec => rec.map Prod.fst) =
      some [["Date", "Open", "High", "Low", "Close", "Support", "Resistance", "Direction",
             "Support_min", "Support_max", "Resistance_min", "Resistance_max",
             "Daily_Return", "MA20", "time", "low", "high"]] ∧
    ((build [demoRow] optsAll).bands.map fun p => p.1.map fun rec => rec.map Prod.fst) ≠
      some [["time", "low", "high"]] := by
  constructor
  · rfl
  · decide

/-- C3 amended: when `show_bands` is true the builder produces exactly two
band series, one record per row in table order, the first using the
support bounds as its `low`/`high` fields and the second using the
resistance bounds; each record does carry `time`, `low` and `high`, but as
a record containing every other column of the table as well (`Date`,
`Open`, ..., `MA20`), not only the three §4.3 field names; both series
follow the table's ascending date order. -/
theorem band_series_amended (tbl : List Row) (o : Options)
    (hb : o.show_bands = true)
    (hs : tbl.Pairwise fun a b => a.date.key ≤ b.date.key) :
    (build tbl o).bands =
      some (tbl.map fun r =>
              [("Date", Value.ts r.date), ("Open", Value.num r.open_),
               ("High", Value.num r.high), ("Low", Value.num r.low),
               ("Close", Value.num r.close), ("Support", Value.nums r.support),
               ("Resistance", Value.nums r.resistance),
               ("Direction", Value.str r.direction),
               ("Support_min", Value.num r.support_min),
               ("Support_max", Value.num r.support_max),
               ("Resistance_min", Value.num r.resistance_min),
               ("Resistance_max", Value.num r.resistance_max),
               ("Daily_Return", optNum r.daily_return), ("MA20", optNum r.ma20),
               ("time", Value.str r.date.date.iso), ("low", Value.num r.support_min),
               ("high", Value.num r.support_max)],
            tbl.map fun r =>
              [("Date", Value.ts r.date), ("Open", Value.num r.open_),
               ("High", Value.num r.high), ("Low", Value.num r.low),
               ("Close", Value.num r.close), ("Support", Value.nums r.support),
               ("Resistance", Value.nums r.resistance),
               ("Direction", Value.str r.direction),
               ("Support_min", Value.num r.support_min),
               ("Support_max", Value.num r.support_max),
               ("Resistance_min", Value.num r.resistance_min),
               ("Resistance_max", Value.num r.resistance_max),
               ("Daily_Return", optNum r.daily_return), ("MA20", optNum r.ma20),
               ("time", Value.str r.date.date.iso), ("low", Value.num r.resistance_min),
               ("high", Value.num r.resistance_max)]) ∧
    ∀ S R, (build tbl o).bands = some (S, R) →
      (S.zip tbl).Pairwise (fun p q => p.2.date.key ≤ q.2.date.key) ∧
      (R.zip tbl).Pairwise (fun p q => p.2.date.key ≤ q.2.date.key) := by
  have hb1 : (build tbl o).bands =
      some (tbl.map fun r => bandRecord r r.support_min r.support_max,
            tbl.map fun r => bandRecord r r.resistance_min r.resistance_max) := by
    show (if o.show_bands then some _ else none) = _
    rw [hb]
    rfl
  constructor
  · rw [hb1]
    rfl
  · intro S R hSR
    rw [hb1] at hSR
    rw [Option.some_inj, Prod.mk.injEq] at hSR
    obtain ⟨h1, h2⟩ := hSR
    subst h1
    subst h2
    constructor <;> (rw [map_zip_self, List.pairwise_map]; exact hs)

/-- C3 witness: the amended band theorem applied to a concrete sorted
two-row table with every toggle on. -/
theorem band_series_amended_witness :
    optsAll.show_bands = true ∧
    ([demoRow, demoRow2].Pairwise fun a b => a.date.key ≤ b.date.key) ∧
    ((build [demoRow, demoRow2] optsAll).bands =
      some ([demoRow, demoRow2].map fun r =>
              [("Date", Value.ts r.date), ("Open", Value.num r.open_),
               ("High", Value.num r.high), ("Low", Value.num r.low),
               ("Close", Value.num r.close), ("Support", Value.nums r.support),
               ("Resistance", Value.nums r.resistance),
               ("Direction", Value.str r.direction),
               ("Support_min", Value.num r.support_min),
               ("Support_max", Value.num r.support_max),
               ("Resistance_min", Value.num r.resistance_min),
               ("Resistance_max", Value.num r.resistance_max),
               ("Daily_Return", optNum r.daily_return), ("MA20", optNum r.ma20),
               ("time", Value.str r.date.date.iso), ("low", Value.num r.support_min),
               ("high", Value.num r.support_max)],
            [demoRow, demoRow2].map fun r =>
              [("Date", Value.ts r.date), ("Open", Value.num r.open_),
               ("High", Value.num r.high), ("Low", Value.num r.low),
               ("Close", Value.num r.close), ("Support", Value.nums r.support),
               ("Resistance", Value.nums r.resistance),
               ("Direction", Value.str r.direction),
               ("Support_min", Value.num r.support_min),
               ("Support_max", Value.num r.support_max),
               ("Resistance_min", Value.num r.resistance_min),
               ("Resistance_max", Value.num r.resistance_max),
               ("Daily_Return", optNum r.daily_return), ("MA20", optNum r.ma20),
               ("time", Value.str r.date.date.iso), ("low", Value.num r.resistance_min),
               ("high", Value.num r.resistance_max)]) ∧
    ∀ S R, (build [demoRow, demoRow2] optsAll).bands = some (S, R) →
      (S.zip [demoRow, demoRow2]).Pairwise (fun p q => p.2.date.key ≤ q.2.date.key) ∧
      (R.zip [demoRow, demoRow2]).Pairwise (fun p q => p.2.date.key ≤ q.2.date.key)) :=
  ⟨rfl, by decide, band_series_amended [demoRow, demoRow2] optsAll rfl (by decide)⟩

/-- C4: after preparation the first row's daily return is undefined and
every later row's daily return is `(close[i] - close[i-1]) / close[i-1] * 100`;
on the scenario closes `[100, 102, 99]` this yields
`[undefined, 2, -50/17]` (`-50/17 = -2.941...`). -/
theorem daily_return_formula (raws : List RawRow) (t : List Row)
    (ht : load_data raws = .ok t) :
    (∀ h0 : 0 < t.length, (t.get ⟨0, h0⟩).daily_return = none) ∧
    (∀ i : ℕ, ∀ h : i + 1 < t.length,
      (t.get ⟨i + 1, h⟩).daily_return =
        some (((t.get ⟨i + 1, h⟩).close - (t.get ⟨i, Nat.lt_of_succ_lt h⟩).close) /
          (t.get ⟨i, Nat.lt_of_succ_lt h⟩).close * 100)) ∧
    (load_data demoRaw3).toOption.map (fun u => u.map Row.daily_return) =
      some [none, some 2, some (-50 / 17)] := by
  obtain ⟨prows, hp, rfl⟩ := load_data_ok ht
  refine ⟨?_, ?_, ?_⟩
  · intro h0
    simpa [List.get_eq_getElem] using addDerived_daily_return_zero h0
  · intro i h
    simpa [List.get_eq_getElem] using addDerived_daily_return_succ h
  · have hbase : (load_data demoRaw3).toOption.map (fun u => u.map Row.daily_return) =
        some [none, some ((102 - 100) / 100 * 100), some ((99 - 102) / 102 * 100)] := rfl
    rw [hbase]
    norm_num

/-- C4 witness: the daily-return theorem applied to the concrete prepared
scenario table. -/
theorem daily_return_formula_witness :
    load_data demoRaw3 = Except.ok t3 ∧
    ((∀ h0 : 0 < t3.length, (t3.get ⟨0, h0⟩).daily_return = none) ∧
     (∀ i : ℕ, ∀ h : i + 1 < t3.length,
       (t3.get ⟨i + 1, h⟩).daily_return =
         some (((t3.get ⟨i + 1, h⟩).close - (t3.get ⟨i, Nat.lt_of_succ_lt h⟩).close) /
           (t3.get ⟨i, Nat.lt_of_succ_lt h⟩).close * 100)) ∧
     (load_data demoRaw3).toOption.map (fun u => u.map Row.daily_return) =
       some [none, some 2, some (-50 / 17)]) :=
  ⟨rfl, daily_return_formula demoRaw3 t3 rfl⟩

theorem drop_getElem_add (L : List Row) (j : ℕ) (h : j < (L.drop 19).length)
    (h2 : j + 19 < L.length) :
    (L.drop 19)[j] = L[j + 19] := by
  rw [List.getElem_drop]
  congr 1
  omega

/-- C5: when `show_moving_average` is on, the line series built over a
prepared table has one point per row whose `MA20` is defined (exactly the
rows past the first nineteen, which are omitted rather than zero-filled),
and the point of the j-th such row carries the row's ISO date and the
arithmetic mean of `close` over the twenty rows ending at it. -/
theorem ma_line_series (raws : List RawRow) (t : List Row) (o : Options)
    (hm : o.show_ma = true) (ht : load_data raws = .ok t) :
    ∃ pts, (build t o).ma20_line = some pts ∧
      pts.length = t.length - 19 ∧
      ∀ j : ℕ, ∀ hj : j + 19 < t.length, ∃ hp : j < pts.length,
        pts.get ⟨j, hp⟩ =
          [("time", Value.str (t.get ⟨j + 19, hj⟩).date.date.iso),
           ("value", Value.num ((((t.map Row.close).drop j).take 20).sum / 20))] := by
  obtain ⟨prows, hp, rfl⟩ := load_data_ok ht
  refine ⟨((addDerived prows).drop 19).map fun r => maPoint r (r.ma20.getD 0), ?_, ?_, ?_⟩
  · show (if o.show_ma
        then some ((addDerived prows).filterMap fun r => r.ma20.map (maPoint r))
        else none) = _
    rw [hm, if_pos rfl, filterMap_maPoint, addDerived_filter_ma20]
  · simp [List.length_drop]
  · intro j hj
    have hj' : j < (((addDerived prows).drop 19).map
        fun r => maPoint r (r.ma20.getD 0)).length := by
      simp only [List.length_map, List.length_drop]
      omega
    refine ⟨hj', ?_⟩
    have hjd : j < ((addDerived prows).drop 19).length := by
      simp only [List.length_drop]
      omega
    rw [List.get_eq_getElem, List.getElem_map, drop_getElem_add _ j hjd hj,
      addDerived_ma20_some hj (by omega)]
    simp only [maPoint, Option.getD_some, List.get_eq_getElem]
    rw [show j + 19 - 19 = j from by omega]
    rfl

/-- C5 witness: the moving-average theorem applied to the concrete
25-day prepared table with the toggle on. -/
theorem ma_line_series_witness :
    optsAll.show_ma = true ∧
    load_data raw25 = Except.ok t25 ∧
    (∃ pts, (build t25 optsAll).ma20_line = some pts ∧
      pts.length = t25.length - 19 ∧
      ∀ j : ℕ, ∀ hj : j + 19 < t25.length, ∃ hp : j < pts.length,
        pts.get ⟨j, hp⟩ =
          [("time", Value.str (t25.get ⟨j + 19, hj⟩).date.date.iso),
           ("value", Value.num ((((t25.map Row.close).drop j).take 20).sum / 20))]) :=
  ⟨rfl, rfl, ma_line_series raw25 t25 optsAll rfl rfl⟩

/-- C6 counterexample: a row stamped 01:00 on 2023-01-05 has its calendar
date inside the range [2023-01-05, 2023-01-05], yet the filter drops it:
the comparison is on full timestamps against the midnights of the bounds,
so time-of-day is not ignored. -/
theorem filter_calendar_counterexample :
    filterByDate [lateRow] ⟨2023, 1, 5⟩ ⟨2023, 1, 5⟩ = [] ∧
    (⟨2023, 1, 5⟩ : Date).key ≤ lateRow.date.date.key ∧
    lateRow.date.date.key ≤ (⟨2023, 1, 5⟩ : Date).key := by
  decide

/-- C6 amended: the filter keeps exactly the rows whose full timestamp
lies between the midnights of `start` and `end`, inclusive on both ends,
preserving order, and yields an empty table rather than failing when no
row matches; for rows whose timestamp has no time-of-day component the
test coincides with inclusive calendar-date comparison. -/
theorem filter_range_amended (tbl : List Row) (s e : Date) :
    (filterByDate tbl s e).Sublist tbl ∧
    (∀ r : Row, r ∈ filterByDate tbl s e ↔
      r ∈ tbl ∧ (midnight s).key ≤ r.date.key ∧ r.date.key ≤ (midnight e).key) ∧
    (∀ r : Row, r.date.sec = 0 →
      (((midnight s).key ≤ r.date.key ∧ r.date.key ≤ (midnight e).key) ↔
        (s.key ≤ r.date.date.key ∧ r.date.date.key ≤ e.key))) := by
  refine ⟨List.filter_sublist _, ?_, ?_⟩
  · intro r
    simp [filterByDate, List.mem_filter, Bool.and_eq_true, decide_eq_true_eq, and_assoc]
  · intro r h0
    simp only [Timestamp.key, midnight, h0]
    omega

/-- C6 witness: the amended filter theorem applied to a concrete one-row
table and range. -/
theorem filter_range_amended_witness :
    (filterByDate [demoRow] ⟨2023, 1, 5⟩ ⟨2023, 1, 6⟩).Sublist [demoRow] ∧
    (∀ r : Row, r ∈ filterByDate [demoRow] ⟨2023, 1, 5⟩ ⟨2023, 1, 6⟩ ↔
      r ∈ [demoRow] ∧ (midnight ⟨2023, 1, 5⟩).key ≤ r.date.key ∧
        r.date.key ≤ (midnight ⟨2023, 1, 6⟩).key) ∧
    (∀ r : Row, r.date.sec = 0 →
      (((midnight ⟨2023, 1, 5⟩).key ≤ r.date.key ∧
          r.date.key ≤ (midnight ⟨2023, 1, 6⟩).key) ↔
        ((⟨2023, 1, 5⟩ : Date).key ≤ r.date.date.key ∧
          r.date.date.key ≤ (⟨2023, 1, 6⟩ : Date).key))) :=
  filter_range_amended [demoRow] ⟨2023, 1, 5⟩ ⟨2023, 1, 6⟩

/-- C7 counterexample: with start 2023-01-09 after end 2023-01-03 and a
nonempty table, the filter returns the empty table normally; the code
performs no start/end validation and no ValidationError is raised. -/
theorem inverted_range_counterexample :
    (⟨2023, 1, 3⟩ : Date).key < (⟨2023, 1, 9⟩ : Date).key ∧
    filterByDate [demoRow, demoRow2] ⟨2023, 1, 9⟩ ⟨2023, 1, 3⟩ = [] := by
  decide

/-- C7 amended: whenever start is strictly after end the filter returns the
empty table — its predicate is unsatisfiable — rather than failing with
ValidationError. -/
theorem inverted_range_empty (tbl : List Row) (s e : Date) (h : e.key < s.key) :
    filterByDate tbl s e = [] := by
  apply List.filter_eq_nil_iff.mpr
  intro r hr
  simp only [Bool.and_eq_true, decide_eq_true_eq, Timestamp.key, midnight, not_and]
  omega

/-- C7 witness: the inverted-range theorem applied to a concrete table and
an inverted range. -/
theorem inverted_range_empty_witness :
    (⟨2023, 1, 3⟩ : Date).key < (⟨2023, 1, 9⟩ : Date).key ∧
    filterByDate [demoRow] ⟨2023, 1, 9⟩ ⟨2023, 1, 3⟩ = [] :=
  ⟨by decide, inverted_range_empty [demoRow] ⟨2023, 1, 9⟩ ⟨2023, 1, 3⟩ (by decide)⟩

/-- C8 counterexample: the spec's malformed cell `"100,105"` is a valid
Python tuple literal; `load_data` succeeds on it, deriving
`support_min = 100` and `support_max = 105`, instead of raising
ParseError. -/
theorem tuple_literal_accepted :
    (load_data [raw8]).isOk = true ∧
    (load_data [raw8]).toOption.map
      (fun t => t.map fun r => (r.support_min, r.support_max)) =
      some [(100, 105)] :=
  ⟨rfl, rfl⟩

/-- C8 amended: `load_data` fails with ParseError whenever some `Support`
or `Resistance` cell is a string that is not a syntactically valid Python
literal (the bracketless `"100,105"`, being a valid tuple literal, is
accepted instead). -/
theorem malformed_literal_parse_error (raws : List RawRow)
    (h : (∃ r ∈ raws, ∃ s, r.support = Cell.str s ∧ literal_eval s = none) ∨
         (∃ r ∈ raws, ∃ s, r.resistance = Cell.str s ∧ literal_eval s = none)) :
    load_data raws = .error .parseError := by
  unfold load_data parsePhase
  rcases h with ⟨r, hr, s, hcell, hparse⟩ | ⟨r, hr, s, hcell, hparse⟩
  · have hr2 : r ∈ sortByDate raws := by
      unfold sortByDate
      exact ((List.perm_insertionSort byDateLe raws).mem_iff).mpr hr
    have hc : parseCellOpt r.support = none := by
      rw [hcell]
      exact hparse
    have hm : mapOpt parseCellOpt ((sortByDate raws).map (fun x => x.support)) = none :=
      mapOpt_eq_none_of_mem (List.mem_map_of_mem _ hr2) hc
    rw [hm]
    rfl
  · cases hsup : mapOpt parseCellOpt ((sortByDate raws).map (fun x => x.support)) with
    | none => rfl
    | some sl =>
      have hr2 : r ∈ sortByDate raws := by
        unfold sortByDate
        exact ((List.perm_insertionSort byDateLe raws).mem_iff).mpr hr
      have hc : parseCellOpt r.resistance = none := by
        rw [hcell]
        exact hparse
      have hm : mapOpt parseCellOpt ((sortByDate raws).map (fun x => x.resistance)) = none :=
        mapOpt_eq_none_of_mem (List.mem_map_of_mem _ hr2) hc
      rw [hm]
      rfl

/-- C8 witness: the amended parse-error theorem applied to a one-row table
whose `Support` cell has an unclosed bracket. -/
theorem malformed_literal_parse_error_witness :
    ((∃ r ∈ [rawBad], ∃ s, r.support = Cell.str s ∧ literal_eval s = none) ∨
     (∃ r ∈ [rawBad], ∃ s, r.resistance = Cell.str s ∧ literal_eval s = none)) ∧
    load_data [rawBad] = .error .parseError :=
  ⟨Or.inl ⟨rawBad, by simp, "[100, 105", rfl, rfl⟩,
   malformed_literal_parse_error [rawBad]
     (Or.inl ⟨rawBad, by simp, "[100, 105", rfl, rfl⟩)⟩

/-- C9 counterexample: two raw rows sharing the date 2023-01-01 survive
preparation as two rows with the same date: `sort_values` sorts but does
not deduplicate. -/
theorem duplicate_dates_kept :
    (load_data rawDup).toOption.map (fun t => t.map Row.date) =
      some [⟨⟨2023, 1, 1⟩, 0⟩, ⟨⟨2023, 1, 1⟩, 0⟩] := rfl

/-- C9 amended: every table returned by `load_data` is sorted by date in
ascending (nondecreasing) order; rows with duplicate dates are kept, not
removed. -/
theorem prepared_sorted (raws : List RawRow) (t : List Row)
    (ht : load_data raws = .ok t) :
    t.Pairwise fun a b => a.date.key ≤ b.date.key := by
  obtain ⟨prows, hp, rfl⟩ := load_data_ok ht
  have hd : (addDerived prows).map Row.date = (sortByDate raws).map RawRow.date := by
    rw [addDerived_map_date]
    exact parsePhase_map_date hp
  have hs : ((sortByDate raws).map RawRow.date).Pairwise
      (fun a b : Timestamp => a.key ≤ b.key) := by
    rw [List.pairwise_map]
    exact sortByDate_pairwise raws
  rw [← hd, List.pairwise_map] at hs
  exact hs

/-- C9 witness: the sortedness theorem applied to the concrete prepared
scenario table. -/
theorem prepared_sorted_witness :
    load_data demoRaw3 = Except.ok t3 ∧
    t3.Pairwise (fun a b => a.date.key ≤ b.date.key) :=
  ⟨rfl, prepared_sorted demoRaw3 t3 rfl⟩

/-- C10: the date-range filter only drops rows — its result is a sublist
of its input, so every retained row, derived columns included, is exactly
the row of the unfiltered prepared table and nothing is recomputed; on the
prepared 25-day table filtered to its last four days, the first retained
row has both `daily_return` and `MA20` defined (computed from rows outside
the selected range), whereas the unfiltered table's first row has
neither. -/
theorem filter_frame_effect :
    (∀ (tbl : List Row) (s e : Date), (filterByDate tbl s e).Sublist tbl) ∧
    load_data raw25 = Except.ok t25 ∧
    (filterByDate t25 ⟨2023, 1, 22⟩ ⟨2023, 1, 25⟩).head?.map
      (fun r => (r.daily_return.isSome, r.ma20.isSome)) = some (true, true) ∧
    t25.head?.map (fun r => (r.daily_return.isSome, r.ma20.isSome)) =
      some (false, false) :=
  ⟨fun tbl _ _ => List.filter_sublist tbl, rfl, rfl, rfl⟩
